import Mathlib

/-!
Verification of the academic-search-engine disagreement scorer
(`ss_scholar.py`) against its natural-language specification.

The Python source is shallowly embedded: pure fragments become Lean
functions, the stateful scoring loop becomes explicit state passing,
Python floats are modelled as rationals (the claims under scrutiny are
structural, not rounding-sensitive), and fallible code returns `Except`
or `Option`.
-/

namespace SSScholar

/-! ## Python string helpers

Executable models of the Python string operations the source relies on:
`str.strip`, `str.find`, `str.split(sep)` and `sep.join`. -/

/-- Characters treated as whitespace by Python `str.strip()`. -/
def isPySpace (c : Char) : Bool :=
  c = ' ' || c = '\t' || c = '\n' || c = '\x0b' || c = '\x0c' || c = '\r'

/-- `str.strip()` on the character list: drop leading and trailing whitespace. -/
def pystripL (l : List Char) : List Char :=
  ((l.dropWhile isPySpace).reverse.dropWhile isPySpace).reverse

/-- Python `s.strip()`. -/
def pystrip (s : String) : String :=
  ⟨pystripL s.data⟩

/-- Python `s.find(c)` for a single-character needle: index of the first
occurrence, or `-1` when absent. -/
def pyfind (s : String) (c : Char) : Int :=
  match s.data.findIdx? (· = c) with
  | some n => (n : Int)
  | none => -1

/-- Helper for `pysplit`: scan the character list, cutting at each separator.
The accumulator holds the current field reversed. -/
def pysplitAux (sep : Char) : List Char → List Char → List String
  | [], acc => [⟨acc.reverse⟩]
  | c :: rest, acc =>
    if c = sep then ⟨acc.reverse⟩ :: pysplitAux sep rest []
    else pysplitAux sep rest (c :: acc)

/-- Python `s.split(sep)` for a single-character separator (empty fields kept). -/
def pysplit (s : String) (sep : Char) : List String :=
  pysplitAux sep s.data []

/-- Python `sep.join(list)`. -/
def joinWith (sep : String) : List String → String
  | [] => ""
  | [x] => x
  | x :: y :: xs => x ++ sep ++ joinWith sep (y :: xs)

/-! ## `ScholarQuery._parenthesize_phrases` (source lines 523 to 545)

Turns a comma-separated phrase list into space-separated tokens, quoting
tokens that contain an internal space. A query without a comma is
returned unchanged. -/

/-- Embedding of `ScholarQuery._parenthesize_phrases`. -/
def parenthesize_phrases (query : String) : String :=
  if pyfind query ',' < 0 then query
  else
    joinWith " " ((pysplit query ',').map (fun phrase =>
      let phrase := pystrip phrase
      if pyfind phrase ' ' > 0 then "\"" ++ phrase ++ "\"" else phrase))

/-! ## `ScholarArticle` (source lines 118 to 195)

A dictionary-like record: each attribute key maps to a triplet of
value, display label and ordering index. Values are Python `None`, a
string, or an int; `None` is modelled as `Option.none`. -/

/-- A non-null Python attribute value: a string or an int. -/
inductive PyVal where
  | s (v : String)
  | i (v : Int)
deriving DecidableEq

/-- One attribute entry: key, value (`none` models Python `None`),
display label, ordering index. -/
structure AttrEntry where
  key : String
  val : Option PyVal
  label : String
  order : Nat
deriving DecidableEq

/-- Embedding of `ScholarArticle`: the ordered attribute mapping plus the
lazily attached citation-export payload. -/
structure ScholarArticle where
  attrs : List AttrEntry
  citation_data : Option String
deriving DecidableEq

/-- The attribute table built by `ScholarArticle.__init__`. -/
def ScholarArticle.init : ScholarArticle where
  attrs :=
    [⟨"title", none, "Title", 0⟩,
     ⟨"url", none, "URL", 1⟩,
     ⟨"year", none, "Year", 2⟩,
     ⟨"num_citations", some (.i 0), "Citations", 3⟩,
     ⟨"num_versions", some (.i 0), "Versions", 4⟩,
     ⟨"cluster_id", none, "Cluster ID", 5⟩,
     ⟨"url_pdf", none, "PDF link", 6⟩,
     ⟨"url_citations", none, "Citations list", 7⟩,
     ⟨"url_versions", none, "Versions list", 8⟩,
     ⟨"url_citation", none, "Citation link", 9⟩,
     ⟨"excerpt", none, "Excerpt", 10⟩]
  citation_data := none

/-- Embedding of `ScholarArticle.__getitem__`: the stored value when the
key is present, Python `None` (here `none`) otherwise. It is a total
function: no exception path exists in the source and none exists here. -/
def ScholarArticle.getitem (a : ScholarArticle) (key : String) : Option PyVal :=
  match a.attrs.find? (fun e => e.key = key) with
  | some e => e.val
  | none => none

/-- Embedding of `ScholarArticle.__setitem__`: update the value in place
when the key exists, otherwise append a fresh entry whose label is the
key and whose order index is the current table size. -/
def ScholarArticle.setitem (a : ScholarArticle) (key : String) (v : Option PyVal) :
    ScholarArticle :=
  if a.attrs.any (fun e => e.key = key) then
    { a with attrs := a.attrs.map (fun e => if e.key = key then { e with val := v } else e) }
  else
    { a with attrs := a.attrs ++ [⟨key, v, key, a.attrs.length⟩] }

/-! ## Response parsing (source lines 226 to 259)

`ScholarArticleParser.parse` walks the candidate result fragments of a
document; for each fragment, a per-backend extraction routine
(`_gs_parse_article` or `_ss_parse_article`) fills a fresh article, the
article is cleaned (`_clean_article` trims the title), and the article is
dispatched to `handle_article` only when its title is truthy. HTML
extraction itself happens inside BeautifulSoup; the embedding therefore
takes, for each candidate fragment, the fields that the extraction
routine would have populated. -/

/-- The per-fragment extraction result: the title and url fields the
per-backend extraction routine populates (either may stay unset). -/
structure ParsedArticle where
  title : Option String
  url : Option String
deriving DecidableEq

/-- Python truthiness of an optional string: `None` and the empty string
are falsy. -/
def pyTruthy : Option String → Bool
  | some s => s ≠ ""
  | none => false

/-- Embedding of `ScholarArticleParser._clean_article`: when the title is
truthy it is stripped, otherwise the article is left alone. -/
def clean_article (a : ParsedArticle) : ParsedArticle :=
  if pyTruthy a.title then { a with title := some (pystrip (a.title.getD "")) } else a

/-- Embedding of the per-fragment loop of `ScholarArticleParser.parse`:
each candidate fragment is extracted, cleaned, and dispatched to
`handle_article` exactly when the cleaned title is truthy. -/
def parse_dispatch (frags : List ParsedArticle) : List ParsedArticle :=
  frags.filterMap (fun raw =>
    let a := clean_article raw
    if pyTruthy a.title then some a else none)

/-! ## Query URL construction (source lines 548 to 694)

`SearchScholarQuery` holds the search fields configured by the caller;
`get_url` validates that at least one discriminating field is set,
phrase-normalizes the word lists, percent-encodes every argument value
and substitutes them into the fixed per-backend URL template. The call
also overwrites the instance attributes `SCHOLAR_QUERY_URL` and
`urlargs`. -/

/-- The backend choice, matching the two values (`gs`, `ss`) the program
constructs queriers and parsers with. -/
inductive Choice where
  | gs
  | ss
deriving DecidableEq

/-- Characters `urllib.quote` leaves unescaped under its default
`safe` value: unreserved characters plus the slash. -/
def isQuoteSafe (c : Char) : Bool :=
  ('A' ≤ c && c ≤ 'Z') || ('a' ≤ c && c ≤ 'z') || ('0' ≤ c && c ≤ '9') ||
    c = '_' || c = '.' || c = '-' || c = '~' || c = '/'

/-- Uppercase hexadecimal digit for `0 ≤ n < 16`. -/
def hexDigit (n : Nat) : Char :=
  if n < 10 then Char.ofNat ('0'.toNat + n) else Char.ofNat ('A'.toNat + n - 10)

/-- A percent-encoded byte, for example `37` to `"%25"`. -/
def pctByte (b : Nat) : String :=
  "%" ++ String.singleton (hexDigit (b / 16)) ++ String.singleton (hexDigit (b % 16))

/-- The UTF-8 bytes of one character, as numbers below 256. -/
def utf8Bytes (c : Char) : List Nat :=
  let n := c.toNat
  if n < 0x80 then [n]
  else if n < 0x800 then [0xC0 + n / 64, 0x80 + n % 64]
  else if n < 0x10000 then [0xE0 + n / 4096, 0x80 + (n / 64) % 64, 0x80 + n % 64]
  else [0xF0 + n / 262144, 0x80 + (n / 4096) % 64, 0x80 + (n / 64) % 64, 0x80 + n % 64]

/-- Embedding of `quote(encode(val))`: UTF-8 encode, then percent-encode
every byte outside the safe set. -/
def pyquote (s : String) : String :=
  String.join (s.data.map (fun c =>
    if isQuoteSafe c then String.singleton c
    else String.join ((utf8Bytes c).map pctByte)))

/-- Embedding of the `SearchScholarQuery` instance state: the search
fields set in `__init__` together with the two attributes `get_url`
overwrites (`SCHOLAR_QUERY_URL` and `urlargs`, whose class-level
defaults are the empty string and the empty dict). -/
structure SearchScholarQuery where
  words : Option String
  words_some : Option String
  words_none : Option String
  phrase : Option String
  scope_title : Bool
  author : Option String
  pub : Option String
  timeframe : Option Int × Option Int
  include_patents : Bool
  include_citations : Bool
  sortby : String
  ae : Bool
  num_results : Nat
  scholar_query_url : String
  urlargs : List (String × String)
deriving DecidableEq

/-- The state `SearchScholarQuery.__init__` produces. -/
def SearchScholarQuery.init : SearchScholarQuery where
  words := none
  words_some := none
  words_none := none
  phrase := none
  scope_title := false
  author := none
  pub := none
  timeframe := (none, none)
  include_patents := true
  include_citations := true
  sortby := "relevance"
  ae := false
  num_results := 8
  scholar_query_url := ""
  urlargs := []

/-- Python `x or ''` for an optional string field. -/
def orEmpty : Option String → String
  | some s => s
  | none => ""

/-- Python `self.timeframe[i] or ''` for an optional int bound: absent
bounds (and the falsy bound `0`) render as the empty string. -/
def yearArg : Option Int → String
  | some n => if n = 0 then "" else toString n
  | none => ""

/-- Value lookup in the `urlargs` association list (all template keys are
always present when the template is rendered). -/
def lookupArg (args : List (String × String)) (k : String) : String :=
  match args.find? (fun p => p.1 = k) with
  | some p => p.2
  | none => ""

/-- The `GS_SCHOLAR_QUERY_URL` class attribute: the literal template
(`%%` in the source renders as one percent sign). -/
def GS_SCHOLAR_QUERY_URL : String :=
  "http://scholar.google.com/scholar?as_q=%(words)s&as_epq=%(phrase)s&as_oq=%(words_some)s&as_eq=%(words_none)s&as_occt=%(scope)s&as_sauthors=%(authors)s&as_publication=%(pub)s&as_ylo=%(ylo)s&as_yhi=%(yhi)s&as_sdt=%(patents)s%2C5&as_vis=%(citations)s&btnG=&hl=en&num=%(num)s"

/-- The `SS_SCHOLAR_QUERY_URL` class attribute: the literal template. -/
def SS_SCHOLAR_QUERY_URL : String :=
  "http://semanticscholar.org/search?q=%(phrase)s&sort=%(sortby)s&ae=%(ae)s"

/-- The `GS_SCHOLAR_QUERY_URL` template rendered over quoted arguments. -/
def renderGsUrl (args : List (String × String)) : String :=
  "http://scholar.google.com/scholar?as_q=" ++ lookupArg args "words" ++
    "&as_epq=" ++ lookupArg args "phrase" ++
    "&as_oq=" ++ lookupArg args "words_some" ++
    "&as_eq=" ++ lookupArg args "words_none" ++
    "&as_occt=" ++ lookupArg args "scope" ++
    "&as_sauthors=" ++ lookupArg args "authors" ++
    "&as_publication=" ++ lookupArg args "pub" ++
    "&as_ylo=" ++ lookupArg args "ylo" ++
    "&as_yhi=" ++ lookupArg args "yhi" ++
    "&as_sdt=" ++ lookupArg args "patents" ++ "%2C5" ++
    "&as_vis=" ++ lookupArg args "citations" ++
    "&btnG=&hl=en" ++
    "&num=" ++ lookupArg args "num"

/-- The `SS_SCHOLAR_QUERY_URL` template rendered over quoted arguments. -/
def renderSsUrl (args : List (String × String)) : String :=
  "http://semanticscholar.org/search?q=" ++ lookupArg args "phrase" ++
    "&sort=" ++ lookupArg args "sortby" ++
    "&ae=" ++ lookupArg args "ae"

/-- Embedding of `SearchScholarQuery.get_url`. Raising
`QueryArgumentError` becomes the `Except.error` branch; on success the
result carries both the updated instance (the source assigns
`self.SCHOLAR_QUERY_URL` and `self.urlargs`) and the rendered URL. -/
def SearchScholarQuery.get_url (q : SearchScholarQuery) (choice : Choice) :
    Except String (SearchScholarQuery × String) :=
  if q.words = none ∧ q.words_some = none ∧ q.words_none = none ∧ q.phrase = none ∧
      q.author = none ∧ q.pub = none ∧ q.timeframe.1 = none ∧ q.timeframe.2 = none then
    Except.error "search query needs more parameters"
  else
    let words_some :=
      match q.words_some with
      | some s => if s = "" then "" else parenthesize_phrases s
      | none => ""
    let words_none :=
      match q.words_none with
      | some s => if s = "" then "" else parenthesize_phrases s
      | none => ""
    let gs_urlargs : List (String × String) :=
      [("words", orEmpty q.words),
       ("words_some", words_some),
       ("words_none", words_none),
       ("phrase", orEmpty q.phrase),
       ("scope", if q.scope_title then "title" else "any"),
       ("authors", orEmpty q.author),
       ("pub", orEmpty q.pub),
       ("ylo", yearArg q.timeframe.1),
       ("yhi", yearArg q.timeframe.2),
       ("patents", if q.include_patents then "0" else "1"),
       ("citations", if q.include_citations then "0" else "1"),
       ("num", toString (if q.num_results = 0 then 8 else q.num_results))]
    let ss_urlargs : List (String × String) :=
      [("phrase", orEmpty q.phrase),
       -- `self.sortby or ''` is the identity on strings (empty stays empty)
       ("sortby", q.sortby),
       -- `self.ae or 'false'` followed by `encode`: True renders as "True"
       ("ae", if q.ae then "True" else "false")]
    match choice with
    | .gs =>
      let args := gs_urlargs.map (fun p => (p.1, pyquote p.2))
      Except.ok ({ q with scholar_query_url := GS_SCHOLAR_QUERY_URL, urlargs := args },
        renderGsUrl args)
    | .ss =>
      let args := ss_urlargs.map (fun p => (p.1, pyquote p.2))
      Except.ok ({ q with scholar_query_url := SS_SCHOLAR_QUERY_URL, urlargs := args },
        renderSsUrl args)

/-! ## `ScholarQuerier.send_query` (source lines 845 to 897)

The querier clears its accumulated articles, stores the query, builds
the URL, fetches it, and parses the payload when the fetch succeeded.
The transport (`_get_http_response`) converts every failure into `None`;
the embedding abstracts the fetch-and-parse of the payload as an
optional list of extracted fragments (`none` models a failed fetch). -/

/-- Embedding of the `ScholarQuerier` state relevant to querying: the
accumulated article list, the last query and the backend choice (the
cookie jar and opener are transport state, out of embedding scope). -/
structure ScholarQuerier where
  articles : List ParsedArticle
  query : Option SearchScholarQuery
  choice : Choice
deriving DecidableEq

/-- Embedding of `ScholarQuerier.send_query`. `fetched` abstracts the
transport and document parsing: `none` is a failed fetch, `some frags`
the candidate fragments of the fetched document; dispatched articles are
appended via `handle_article` and `add_article`. A `QueryArgumentError`
raised by `get_url` propagates as `Except.error`. -/
def ScholarQuerier.send_query (sq : ScholarQuerier) (query : SearchScholarQuery)
    (fetched : Option (List ParsedArticle)) : Except String ScholarQuerier :=
  let sq := { sq with articles := [] }
  let sq := { sq with query := some query }
  match query.get_url sq.choice with
  | .error e => .error e
  | .ok _ =>
    match fetched with
    | none => .ok sq
    | some frags => .ok { sq with articles := sq.articles ++ parse_dispatch frags }

/-! ## Overlap scoring (source lines 1190 to 1410)

Per topic, `main` collects the four title lists (Google Scholar,
Semantic Scholar, Scopus, Microsoft Academic), runs the data-quality
check, truncates each list to 8, converts to sets, and walks the eleven
backend combinations in a fixed order: each combination is guarded by
the non-emptiness of its sets, its Jaccard score is added to
`sum_score`, and a failed guard runs `continue`, aborting the rest of
the combinations for that topic; only after the last combination is the
shared counter `cnt` incremented. After all topics every sum is divided
by `cnt`. Title elements live in `Option String` because the check loop
explicitly compares entries against `None`. -/

/-- The eleven keys of the `sum_score` dict. -/
inductive ComboKey where
  | GS_SS
  | SS_SCOPUS
  | SCOPUS_MAS
  | MAS_GS
  | GS_SCOPUS
  | SS_MAS
  | GS_SS_SCOPUS
  | SS_SCOPUS_MAS
  | SCOPUS_MAS_GS
  | MAS_GS_SS
  | GS_SS_SCOPUS_MAS
deriving DecidableEq

/-- The scoring state of `main`: the running sums and the shared topic
counter. Scores are rationals standing in for Python floats; all claims
about this loop are structural, not rounding-sensitive. -/
structure ScoreState where
  sum_score : ComboKey → ℚ
  cnt : Nat

/-- The state before the topic loop: every sum `0.0`, `cnt = 0`. -/
def initState : ScoreState where
  sum_score := fun _ => 0
  cnt := 0

/-- `sum_score[k] += x`. -/
def bump (st : ScoreState) (k : ComboKey) (x : ℚ) : ScoreState :=
  { st with sum_score := fun j => if j = k then st.sum_score j + x else st.sum_score j }

/-- Two-set Jaccard score, `len(intersection)/float(len(union))`. -/
def jac2 (a b : Finset (Option String)) : ℚ :=
  ((a ∩ b).card : ℚ) / ((a ∪ b).card : ℚ)

/-- Three-set Jaccard score. -/
def jac3 (a b c : Finset (Option String)) : ℚ :=
  ((a ∩ b ∩ c).card : ℚ) / ((a ∪ b ∪ c).card : ℚ)

/-- Four-set Jaccard score. -/
def jac4 (a b c d : Finset (Option String)) : ℚ :=
  ((a ∩ b ∩ c ∩ d).card : ℚ) / ((a ∪ b ∪ c ∪ d).card : ℚ)

/-- Embedding of the per-topic combination walk (source lines 1342 to
1400). Each `else: continue` of the source is the early return of the
state accumulated so far; `cnt` is incremented only after the last
combination. Guard conditions and set operand orders are transcribed
verbatim. -/
def scoreCascade (st : ScoreState) (gs ss mas scopus : Finset (Option String)) : ScoreState :=
  if 0 < gs.card ∧ 0 < ss.card then
    let st := bump st .GS_SS (jac2 gs ss)
    if 0 < scopus.card ∧ 0 < ss.card then
      let st := bump st .SS_SCOPUS (jac2 ss scopus)
      if 0 < mas.card ∧ 0 < scopus.card then
        let st := bump st .SCOPUS_MAS (jac2 mas scopus)
        if 0 < gs.card ∧ 0 < mas.card then
          let st := bump st .MAS_GS (jac2 mas gs)
          if 0 < gs.card ∧ 0 < scopus.card then
            let st := bump st .GS_SCOPUS (jac2 scopus gs)
            if 0 < mas.card ∧ 0 < ss.card then
              let st := bump st .SS_MAS (jac2 mas ss)
              if 0 < gs.card ∧ 0 < ss.card ∧ 0 < scopus.card then
                let st := bump st .GS_SS_SCOPUS (jac3 ss gs scopus)
                if 0 < mas.card ∧ 0 < ss.card ∧ 0 < scopus.card then
                  let st := bump st .SS_SCOPUS_MAS (jac3 ss mas scopus)
                  if 0 < mas.card ∧ 0 < gs.card ∧ 0 < scopus.card then
                    let st := bump st .SCOPUS_MAS_GS (jac3 mas gs scopus)
                    if 0 < gs.card ∧ 0 < ss.card ∧ 0 < mas.card then
                      let st := bump st .MAS_GS_SS (jac3 mas gs ss)
                      if 0 < gs.card ∧ 0 < ss.card ∧ 0 < mas.card ∧ 0 < scopus.card then
                        let st := bump st .GS_SS_SCOPUS_MAS (jac4 mas gs ss scopus)
                        { st with cnt := st.cnt + 1 }
                      else st
                    else st
                  else st
                else st
              else st
            else st
          else st
        else st
      else st
    else st
  else st

/-- The shape of the Scopus JSON response as the check loop (source
lines 1294 to 1308) discriminates it: the outer `search-results` key may
be missing, the inner `entry` key may be missing, or there is a list of
entries whose `dc:title` is present (`some`) or absent (`none`). -/
inductive ScopusResponse where
  | noSearchResults
  | noEntry
  | entries (l : List (Option String))
deriving DecidableEq

/-- Embedding of the Scopus entry loop: collect the titles of entries
that carry one, set `check` to 1 and print a diagnostic for each entry
that does not. Returns the collected titles, the check flag contribution
and the printed messages. -/
def scopusEntriesScan : List (Option String) → List String × Nat × List String
  | [] => ([], 0, [])
  | some t :: rest =>
    (t :: (scopusEntriesScan rest).1, (scopusEntriesScan rest).2.1, (scopusEntriesScan rest).2.2)
  | none :: rest =>
    ((scopusEntriesScan rest).1, 1, "check changed in scopus" :: (scopusEntriesScan rest).2.2)

/-- Embedding of the Scopus branch of the check phase: a missing
`search-results` or `entry` key sets `check` to 1 with a diagnostic and
leaves `scopus_articles` empty; otherwise the entries are scanned. -/
def scopusScan : ScopusResponse → List String × Nat × List String
  | .noSearchResults => ([], 1, ["check changed in scopus"])
  | .noEntry => ([], 1, ["check changed in scopus"])
  | .entries l => scopusEntriesScan l

/-- Embedding of the `None`-hunting loops over the Google Scholar and
Semantic Scholar title lists: `check` becomes 1 when a `None` entry is
present, and one diagnostic is printed per `None` entry. -/
def noneCheck (msg : String) : List (Option String) → Nat × List String
  | [] => (0, [])
  | none :: rest => (1, msg :: (noneCheck msg rest).2)
  | some _ :: rest => noneCheck msg rest

/-- The four per-topic result collections as they stand right before the
check phase: the Google Scholar titles (`new_querier_gs`), the Semantic
Scholar titles (pulled out of the querier via `__getitem__`), the raw
Scopus response, and the Microsoft Academic titles (`querier_mas`). -/
structure TopicData where
  gs : List (Option String)
  ss : List (Option String)
  scopus : ScopusResponse
  mas : List (Option String)
deriving DecidableEq

/-- The whole check phase of one topic: the Scopus scan followed by the
two `None` hunts. Returns the extracted Scopus titles, the final value
of `check` and the concatenated diagnostics. The MAS list is never
examined here, exactly as in the source. -/
def topicScan (t : TopicData) : List String × Nat × List String :=
  ((scopusScan t.scopus).1,
    max (scopusScan t.scopus).2.1
      (max (noneCheck "check changed in gs_articles" t.gs).1
        (noneCheck "check changed in ss_articles" t.ss).1),
    (scopusScan t.scopus).2.2 ++ (noneCheck "check changed in gs_articles" t.gs).2 ++
      (noneCheck "check changed in ss_articles" t.ss).2)

/-- The truncated Google Scholar title set of a topic (list capped at 8,
then turned into a set). -/
def topicGsSet (t : TopicData) : Finset (Option String) := (t.gs.take 8).toFinset

/-- The truncated Semantic Scholar title set of a topic. -/
def topicSsSet (t : TopicData) : Finset (Option String) := (t.ss.take 8).toFinset

/-- The truncated Microsoft Academic title set of a topic. -/
def topicMasSet (t : TopicData) : Finset (Option String) := (t.mas.take 8).toFinset

/-- The truncated Scopus title set of a topic: the titles collected by
the check phase, capped at 8, as a set. -/
def topicScopusSet (t : TopicData) : Finset (Option String) :=
  (((topicScan t).1.take 8).map some).toFinset

/-- One iteration of the topic loop: when `check` ended up 1 the topic
is skipped (`continue`) leaving the state untouched, otherwise the
truncated sets are scored by the combination walk. -/
def processTopic (st : ScoreState) (t : TopicData) : ScoreState :=
  if (topicScan t).2.1 = 1 then st
  else scoreCascade st (topicGsSet t) (topicSsSet t) (topicMasSet t) (topicScopusSet t)

/-- The whole topic loop over a batch, starting from the zeroed state. -/
def runBatch (topics : List TopicData) : ScoreState :=
  topics.foldl processTopic initState

/-- Embedding of the final averaging loop (source lines 1407 to 1410):
every sum is divided by the one shared counter `cnt`. Rational division
is total (`x / 0 = 0`) where Python would raise on `cnt = 0`; the claims
below only concern batches with a positive counter. -/
def finalizeScores (st : ScoreState) (k : ComboKey) : ℚ :=
  st.sum_score k / (st.cnt : ℚ)

/-! ### Flattened characterization of the cascade

The nested guards above flatten to: `GS_SS` is reached when the GS and
SS sets are non-empty; `SS_SCOPUS` additionally needs Scopus; every
later combination (and the counter increment) needs all four sets
non-empty. These definitions restate that flattening so the cascade can
be proved against it. -/

/-- Whether the cascade reaches the bump of combination `k`. -/
def comboReached (k : ComboKey) (gs ss mas scopus : Finset (Option String)) : Bool :=
  match k with
  | .GS_SS => decide (0 < gs.card) && decide (0 < ss.card)
  | .SS_SCOPUS => decide (0 < gs.card) && decide (0 < ss.card) && decide (0 < scopus.card)
  | _ =>
    decide (0 < gs.card) && decide (0 < ss.card) && decide (0 < mas.card) &&
      decide (0 < scopus.card)

/-- The score added for combination `k` when its bump is reached. -/
def comboScore (k : ComboKey) (gs ss mas scopus : Finset (Option String)) : ℚ :=
  match k with
  | .GS_SS => jac2 gs ss
  | .SS_SCOPUS => jac2 ss scopus
  | .SCOPUS_MAS => jac2 mas scopus
  | .MAS_GS => jac2 mas gs
  | .GS_SCOPUS => jac2 scopus gs
  | .SS_MAS => jac2 mas ss
  | .GS_SS_SCOPUS => jac3 ss gs scopus
  | .SS_SCOPUS_MAS => jac3 ss mas scopus
  | .SCOPUS_MAS_GS => jac3 mas gs scopus
  | .MAS_GS_SS => jac3 mas gs ss
  | .GS_SS_SCOPUS_MAS => jac4 mas gs ss scopus

/-- A topic on which the shared counter is incremented: the check phase
found nothing and all four truncated sets are non-empty. -/
def validTopic (t : TopicData) : Bool :=
  decide (¬ (topicScan t).2.1 = 1) && decide (0 < (topicGsSet t).card) &&
    decide (0 < (topicSsSet t).card) && decide (0 < (topicMasSet t).card) &&
    decide (0 < (topicScopusSet t).card)

/-- Modelled from the spec: the denominator the specification asserts
for `finalize`, namely the number of topics of the batch that actually
contributed a score to the given combination (the topic passed the check
phase and the cascade reached that combination). Used only to compare
the specified averaging against the implemented one. -/
def specContribCount (topics : List TopicData) (k : ComboKey) : Nat :=
  (topics.filter (fun t =>
    decide (¬ (topicScan t).2.1 = 1) &&
      comboReached k (topicGsSet t) (topicSsSet t) (topicMasSet t) (topicScopusSet t))).length

/-- Whether a Scopus response trips the data-quality gate: a missing
structure key or an entry without a title. -/
def scopusBad : ScopusResponse → Bool
  | .noSearchResults => true
  | .noEntry => true
  | .entries l => l.contains none

/-- Whether an `Except` value is the error branch (Python: the call
raised). -/
def isErr {ε α : Type} : Except ε α → Bool
  | .error _ => true
  | .ok _ => false

/-! ## Supporting lemmas -/

theorem dropWhile_dropWhile_self {α : Type} (p : α → Bool) (l : List α) :
    (l.dropWhile p).dropWhile p = l.dropWhile p := by
  induction l with
  | nil => rfl
  | cons a t ih =>
    cases h : p a with
    | true => simp [List.dropWhile_cons, h, ih]
    | false => simp [List.dropWhile_cons, h]

theorem head_false_of_dropWhile_eq_cons {α : Type} {p : α → Bool} {l t : List α} {a : α}
    (h : l.dropWhile p = a :: t) : p a = false := by
  have hh := List.head?_dropWhile_not p l
  rw [h] at hh
  simpa using hh

theorem pystripL_idem (l : List Char) : pystripL (pystripL l) = pystripL l := by
  unfold pystripL
  generalize hm : l.dropWhile isPySpace = m
  generalize hr : m.reverse.dropWhile isPySpace = r
  have h1 : r.reverse.dropWhile isPySpace = r.reverse := by
    cases hrr : r.reverse with
    | nil => simp
    | cons b bt =>
      have hsuf : r <:+ m.reverse := hr ▸ List.dropWhile_suffix _
      have hpre : r.reverse <+: m := by
        have := List.reverse_prefix.mpr hsuf
        rwa [List.reverse_reverse] at this
      obtain ⟨t2, ht2⟩ := hpre
      have hb : isPySpace b = false := by
        apply head_false_of_dropWhile_eq_cons (l := l)
        rw [hm, ← ht2, hrr]; rfl
      simp [List.dropWhile_cons, hb]
  rw [h1, List.reverse_reverse, ← hr, dropWhile_dropWhile_self]

theorem pystrip_idem (s : String) : pystrip (pystrip s) = pystrip s := by
  unfold pystrip
  exact congrArg String.mk (pystripL_idem s.data)

/-! ## Claims about parsing and the article record -/

/-- C5: the parse loop hands `handle_article` only records whose title is
non-empty after trimming (a record with an empty or absent title, or a
title that trims to nothing, is silently dropped), and the number of
dispatched records never exceeds the number of candidate fragments. -/
theorem parse_dispatch_titles_nonempty (frags : List ParsedArticle) :
    (∀ a ∈ parse_dispatch frags, ∃ t : String, a.title = some t ∧ t ≠ "" ∧ pystrip t = t) ∧
      (parse_dispatch frags).length ≤ frags.length := by
  constructor
  · intro a ha
    unfold parse_dispatch at ha
    rw [List.mem_filterMap] at ha
    obtain ⟨raw, _, hr⟩ := ha
    simp only [clean_article] at hr
    by_cases h : pyTruthy raw.title
    · rw [if_pos h] at hr
      split at hr
      · next hth =>
        cases hr
        refine ⟨_, rfl, ?_, pystrip_idem _⟩
        simpa [pyTruthy] using hth
      · exact absurd hr (by simp)
    · rw [if_neg h] at hr
      split at hr
      · next hth => exact absurd hth h
      · exact absurd hr (by simp)
  · exact List.length_filterMap_le _ _

/-- C5 witness: a fragment with title `"  Honeycomb  "` is dispatched as
`"Honeycomb"`; a whitespace-only title and an absent title are dropped. -/
theorem parse_dispatch_titles_nonempty_witness :
    (∃ t : String, (⟨some "Honeycomb", none⟩ : ParsedArticle).title = some t ∧ t ≠ "" ∧
        pystrip t = t) ∧
      (parse_dispatch [⟨some "  Honeycomb  ", none⟩, ⟨some "   ", none⟩, ⟨none, some "u"⟩]).length ≤
        (([⟨some "  Honeycomb  ", none⟩, ⟨some "   ", none⟩, ⟨none, some "u"⟩] :
          List ParsedArticle)).length :=
  ⟨(parse_dispatch_titles_nonempty
      [⟨some "  Honeycomb  ", none⟩, ⟨some "   ", none⟩, ⟨none, some "u"⟩]).1
      ⟨some "Honeycomb", none⟩ (by decide),
    (parse_dispatch_titles_nonempty
      [⟨some "  Honeycomb  ", none⟩, ⟨some "   ", none⟩, ⟨none, some "u"⟩]).2⟩

/-- C9: `ScholarArticle.__getitem__` is total; it yields the stored value
of the first entry carrying the key, and `None` when no entry does. The
absence of an exception path is inherent: `getitem` is a total function,
exactly as the source returns on every path. -/
theorem getitem_total (a : ScholarArticle) (key : String) :
    (∃ e ∈ a.attrs, e.key = key ∧ a.getitem key = e.val) ∨
      ((∀ e ∈ a.attrs, e.key ≠ key) ∧ a.getitem key = none) := by
  unfold ScholarArticle.getitem
  cases hf : a.attrs.find? (fun e => e.key = key) with
  | some e =>
    left
    refine ⟨e, List.mem_of_find?_eq_some hf, ?_, rfl⟩
    simpa using List.find?_some hf
  | none =>
    right
    refine ⟨?_, rfl⟩
    intro e he
    simpa using List.find?_eq_none.mp hf e he

/-! ## Claims about query construction -/

/-- C4: `get_url` raises `QueryArgumentError` exactly when every
discriminating field (required words, any-of words, none-of words,
phrase, author, publication and both year bounds) is unset. -/
theorem get_url_error_iff (q : SearchScholarQuery) (choice : Choice) :
    isErr (q.get_url choice) = true ↔
      (q.words = none ∧ q.words_some = none ∧ q.words_none = none ∧ q.phrase = none ∧
        q.author = none ∧ q.pub = none ∧ q.timeframe.1 = none ∧ q.timeframe.2 = none) := by
  unfold SearchScholarQuery.get_url
  split
  · next h => simpa [isErr] using h
  · next h => cases choice <;> simpa [isErr] using h

/-- C6: phrase normalization sends `"a b, c"` to exactly `"\"a b\" c"`:
the comma-separated phrases are stripped, the multi-word one is quoted,
and the tokens are joined by single spaces. -/
theorem parenthesize_ab_c : parenthesize_phrases "a b, c" = "\"a b\" c" := by decide

/-- C10: phrase normalization returns every comma-free input unchanged,
even a multi-word one; splitting, stripping and quoting happen only when
a comma is present. -/
theorem parenthesize_id_of_no_comma (s : String) (h : ',' ∉ s.data) :
    parenthesize_phrases s = s := by
  have hf : pyfind s ',' < 0 := by
    unfold pyfind
    have hn : s.data.findIdx? (fun c => c = ',') = none := by
      rw [List.findIdx?_eq_none_iff]
      intro x hx
      simp only [decide_eq_false_iff_not]
      intro he
      exact h (he ▸ hx)
    rw [hn]
    norm_num
  unfold parenthesize_phrases
  rw [if_pos hf]

/-- C10 witness: the multi-word, comma-free input `"hello world"` is
returned unchanged and unquoted. -/
theorem parenthesize_id_of_no_comma_witness :
    ',' ∉ "hello world".data ∧ parenthesize_phrases "hello world" = "hello world" :=
  ⟨by decide, parenthesize_id_of_no_comma "hello world" (by decide)⟩

/-- C7: `send_query` first clears the articles accumulated by earlier
queries and stores the query; when the fetch fails (the transport
returned `None`) it returns normally with the article list empty, and
when the fetch succeeds the resulting articles come from this response
alone, never from the previous state. -/
theorem send_query_clears_and_survives_fetch_failure (sq : ScholarQuerier)
    (query : SearchScholarQuery) (h : isErr (query.get_url sq.choice) = false) :
    sq.send_query query none = .ok { sq with articles := [], query := some query } ∧
      ∀ frags, sq.send_query query (some frags) =
        .ok { sq with articles := parse_dispatch frags, query := some query } := by
  unfold ScholarQuerier.send_query
  cases hg : query.get_url sq.choice with
  | error e => rw [hg] at h; simp [isErr] at h
  | ok v => exact ⟨by simp [hg], fun frags => by simp [hg]⟩

/-- C7 witness: a querier holding one stale article, queried with a
phrase-bearing query whose fetch fails, ends with an empty article list
and no exception. -/
theorem send_query_clears_witness :
    ScholarQuerier.send_query ⟨[⟨some "old", none⟩], none, Choice.ss⟩
        { SearchScholarQuery.init with phrase := some "x" } none =
      .ok { (⟨[⟨some "old", none⟩], none, Choice.ss⟩ : ScholarQuerier) with
        articles := [], query := some { SearchScholarQuery.init with phrase := some "x" } } :=
  (send_query_clears_and_survives_fetch_failure ⟨[⟨some "old", none⟩], none, Choice.ss⟩
    { SearchScholarQuery.init with phrase := some "x" } (by decide)).1

/-- C8, amended: the URL rendered by `get_url` is a deterministic
function of the search fields and the backend choice alone (the cached
`SCHOLAR_QUERY_URL` and `urlargs` attributes of the instance do not
influence it, and the embedding performs no I/O by construction). The
claimed absence of state mutation is refuted separately: `get_url`
overwrites both cache attributes. -/
theorem get_url_deterministic (words words_some words_none phrase : Option String)
    (scope_title : Bool) (author pub : Option String) (timeframe : Option Int × Option Int)
    (include_patents include_citations : Bool) (sortby : String) (ae : Bool)
    (num_results : Nat) (u1 u2 : String) (a1 a2 : List (String × String)) (choice : Choice) :
    (SearchScholarQuery.get_url
        ⟨words, words_some, words_none, phrase, scope_title, author, pub, timeframe,
          include_patents, include_citations, sortby, ae, num_results, u1, a1⟩ choice).map
        Prod.snd =
      (SearchScholarQuery.get_url
        ⟨words, words_some, words_none, phrase, scope_title, author, pub, timeframe,
          include_patents, include_citations, sortby, ae, num_results, u2, a2⟩ choice).map
        Prod.snd := rfl

/-- The returned instance of a concrete successful `get_url` call, with
only its `urlargs` attribute retained. -/
def c8ReturnedArgs : Option (List (String × String)) :=
  (SearchScholarQuery.get_url { SearchScholarQuery.init with phrase := some "x" }
      Choice.gs).toOption.map (fun p => p.1.urlargs)

/-- C8 counterexample: on a fresh query with only the phrase set, the
`gs` call succeeds and hands back an instance whose `urlargs` attribute
differs from the one it was called on — `get_url` does not leave the
query object unchanged. -/
theorem get_url_mutates_urlargs :
    c8ReturnedArgs ≠ none ∧
      c8ReturnedArgs ≠
        some ({ SearchScholarQuery.init with phrase := some "x" } : SearchScholarQuery).urlargs := by
  constructor
  · decide
  · decide

/-! ## Lemmas about the scoring cascade and the check phase -/

set_option maxHeartbeats 1000000 in
theorem scoreCascade_cnt (st : ScoreState) (gs ss mas scopus : Finset (Option String)) :
    (scoreCascade st gs ss mas scopus).cnt =
      st.cnt + (if 0 < gs.card ∧ 0 < ss.card ∧ 0 < mas.card ∧ 0 < scopus.card then 1 else 0) := by
  unfold scoreCascade
  by_cases hg : 0 < gs.card <;> by_cases hs : 0 < ss.card <;>
    by_cases hm : 0 < mas.card <;> by_cases hsc : 0 < scopus.card <;>
      simp [bump, hg, hs, hm, hsc]

set_option maxHeartbeats 4000000 in
theorem scoreCascade_sum (st : ScoreState) (gs ss mas scopus : Finset (Option String))
    (k : ComboKey) :
    (scoreCascade st gs ss mas scopus).sum_score k =
      st.sum_score k +
        (if comboReached k gs ss mas scopus = true then comboScore k gs ss mas scopus else 0) := by
  by_cases hg : 0 < gs.card <;> by_cases hs : 0 < ss.card <;>
    by_cases hm : 0 < mas.card <;> by_cases hsc : 0 < scopus.card <;>
      cases k <;> simp [scoreCascade, bump, comboReached, comboScore, hg, hs, hm, hsc]

theorem processTopic_cnt (st : ScoreState) (t : TopicData) :
    (processTopic st t).cnt = st.cnt + (if validTopic t = true then 1 else 0) := by
  unfold processTopic validTopic
  by_cases hc : (topicScan t).2.1 = 1
  · simp [hc]
  · rw [if_neg hc, scoreCascade_cnt]
    congr 1
    by_cases h1 : 0 < (topicGsSet t).card <;> by_cases h2 : 0 < (topicSsSet t).card <;>
      by_cases h3 : 0 < (topicMasSet t).card <;> by_cases h4 : 0 < (topicScopusSet t).card <;>
        simp [hc, h1, h2, h3, h4]

theorem processTopic_sum (st : ScoreState) (t : TopicData) (k : ComboKey) :
    (processTopic st t).sum_score k =
      st.sum_score k +
        (if ((topicScan t).2.1 ≠ 1 ∧
            comboReached k (topicGsSet t) (topicSsSet t) (topicMasSet t) (topicScopusSet t) = true)
          then comboScore k (topicGsSet t) (topicSsSet t) (topicMasSet t) (topicScopusSet t)
          else 0) := by
  unfold processTopic
  by_cases hc : (topicScan t).2.1 = 1
  · simp [hc]
  · rw [if_neg hc, scoreCascade_sum]
    congr 1
    by_cases hr : comboReached k (topicGsSet t) (topicSsSet t) (topicMasSet t)
        (topicScopusSet t) = true <;>
      simp [hc, hr]

theorem foldl_processTopic_cnt (topics : List TopicData) (st : ScoreState) :
    (topics.foldl processTopic st).cnt = st.cnt + topics.countP validTopic := by
  induction topics generalizing st with
  | nil => simp
  | cons t rest ih =>
    rw [List.foldl_cons, ih, processTopic_cnt, List.countP_cons]
    by_cases h : validTopic t = true
    · simp only [h, if_true]
      omega
    · simp only [h, if_false]
      omega

theorem noneCheck_fst_le (msg : String) (l : List (Option String)) :
    (noneCheck msg l).1 ≤ 1 := by
  induction l with
  | nil => simp [noneCheck]
  | cons a t ih => cases a <;> simp [noneCheck, ih]

theorem noneCheck_of_mem (msg : String) (l : List (Option String)) (h : none ∈ l) :
    (noneCheck msg l).1 = 1 ∧ (noneCheck msg l).2 ≠ [] := by
  induction l with
  | nil => cases h
  | cons a t ih =>
    cases a with
    | none => exact ⟨rfl, by simp [noneCheck]⟩
    | some v =>
      have ht : none ∈ t := by
        cases h with
        | tail _ h => exact h
      simpa [noneCheck] using ih ht

theorem scopusEntriesScan_fst_le (l : List (Option String)) :
    (scopusEntriesScan l).2.1 ≤ 1 := by
  induction l with
  | nil => simp [scopusEntriesScan]
  | cons a t ih => cases a <;> simp [scopusEntriesScan, ih]

theorem scopusScan_fst_le (r : ScopusResponse) : (scopusScan r).2.1 ≤ 1 := by
  cases r with
  | noSearchResults => simp [scopusScan]
  | noEntry => simp [scopusScan]
  | entries l => simpa [scopusScan] using scopusEntriesScan_fst_le l

theorem scopusScan_of_bad (r : ScopusResponse) (h : scopusBad r = true) :
    (scopusScan r).2.1 = 1 ∧ (scopusScan r).2.2 ≠ [] := by
  cases r with
  | noSearchResults => exact ⟨rfl, by simp [scopusScan]⟩
  | noEntry => exact ⟨rfl, by simp [scopusScan]⟩
  | entries l =>
    have hm : none ∈ l := by simpa [scopusBad] using h
    simp only [scopusScan]
    induction l with
    | nil => cases hm
    | cons a t ih =>
      cases a with
      | none => exact ⟨rfl, by simp [scopusEntriesScan]⟩
      | some v =>
        have ht : none ∈ t := by
          cases hm with
          | tail _ hmm => exact hmm
        simpa [scopusEntriesScan] using ih (by simpa [scopusBad] using ht) ht

theorem jac2_singleton (x : Option String) : jac2 {x} {x} = 1 := by
  unfold jac2
  simp

/-! ## Claims about the overlap scorer -/

/-- C3, amended: a topic whose Google Scholar or Semantic Scholar list
contains a null entry, or whose Scopus response lacks the results
structure or contains an entry without a title, is skipped entirely
(state untouched for every combination and for the counter) and the
condition is signalled by diagnostic messages, not an exception — the
embedding of the check phase is a total function. The Microsoft Academic
list, however, is never null-checked (see the counterexample). -/
theorem processTopic_skips_null_topics (st : ScoreState) (t : TopicData)
    (h : none ∈ t.gs ∨ none ∈ t.ss ∨ scopusBad t.scopus = true) :
    processTopic st t = st ∧ (topicScan t).2.2 ≠ [] := by
  have b1 := scopusScan_fst_le t.scopus
  have b2 := noneCheck_fst_le "check changed in gs_articles" t.gs
  have b3 := noneCheck_fst_le "check changed in ss_articles" t.ss
  have hcheck : (topicScan t).2.1 = 1 := by
    unfold topicScan
    rcases h with h | h | h
    · have h2 := (noneCheck_of_mem "check changed in gs_articles" t.gs h).1
      simp only
      omega
    · have h3 := (noneCheck_of_mem "check changed in ss_articles" t.ss h).1
      simp only
      omega
    · have h1 := (scopusScan_of_bad t.scopus h).1
      simp only
      omega
  refine ⟨by unfold processTopic; rw [if_pos hcheck], ?_⟩
  unfold topicScan
  simp only [ne_eq, List.append_eq_nil]
  rcases h with h | h | h
  · have h2 := (noneCheck_of_mem "check changed in gs_articles" t.gs h).2
    tauto
  · have h3 := (noneCheck_of_mem "check changed in ss_articles" t.ss h).2
    tauto
  · have h1 := (scopusScan_of_bad t.scopus h).2
    tauto

/-- C3 witness: a topic whose Google Scholar list contains a null entry
leaves the initial state untouched and produces a diagnostic. -/
theorem processTopic_skips_null_topics_witness :
    processTopic initState ⟨[none, some "a"], [some "b"], .entries [some "c"], [some "d"]⟩ =
        initState ∧
      (topicScan ⟨[none, some "a"], [some "b"], .entries [some "c"], [some "d"]⟩).2.2 ≠ [] :=
  processTopic_skips_null_topics initState
    ⟨[none, some "a"], [some "b"], .entries [some "c"], [some "d"]⟩ (Or.inl (by decide))

/-- The topic used to refute the universal null gate: its Microsoft
Academic list consists of a single null entry, all other backends are
clean. -/
def masNullTopic : TopicData :=
  ⟨[some "a"], [some "a"], .entries [some "a"], [none]⟩

/-- C3 counterexample: a null in the Microsoft Academic result set does
not invalidate the topic — the shared counter is incremented and the
GS and SS combination still receives a score, contradicting the claim
that a null in any backend result set excludes the topic from every
combination. -/
theorem mas_null_not_gated :
    none ∈ masNullTopic.mas ∧ (runBatch [masNullTopic]).cnt = 1 ∧
      (runBatch [masNullTopic]).sum_score ComboKey.GS_SS = 1 := by
  refine ⟨by decide, by decide, ?_⟩
  show (processTopic initState masNullTopic).sum_score ComboKey.GS_SS = 1
  rw [processTopic_sum]
  rw [if_pos (by decide :
    (topicScan masNullTopic).2.1 ≠ 1 ∧
      comboReached ComboKey.GS_SS (topicGsSet masNullTopic) (topicSsSet masNullTopic)
        (topicMasSet masNullTopic) (topicScopusSet masNullTopic) = true)]
  have hg : topicGsSet masNullTopic = {some "a"} := by decide
  have hs : topicSsSet masNullTopic = {some "a"} := by decide
  simp [initState, comboScore, hg, hs, jac2_singleton]

/-- C2, amended: the eleven combinations are evaluated in a fixed order
with an early exit: `GS_SS` is scored exactly when the GS and SS sets
are non-empty, `SS_SCOPUS` exactly when GS, SS and Scopus are non-empty,
and every other combination — and the shared counter — exactly when all
four sets are non-empty; each scored combination receives exactly its
Jaccard similarity. An empty set therefore suppresses later combinations
even when their own backends are all non-empty. -/
theorem cascade_flattened_guards (st : ScoreState) (gs ss mas scopus : Finset (Option String))
    (k : ComboKey) :
    (scoreCascade st gs ss mas scopus).sum_score k =
        st.sum_score k +
          (if comboReached k gs ss mas scopus = true then comboScore k gs ss mas scopus else 0) ∧
      (scoreCascade st gs ss mas scopus).cnt =
        st.cnt + (if 0 < gs.card ∧ 0 < ss.card ∧ 0 < mas.card ∧ 0 < scopus.card then 1 else 0) :=
  ⟨scoreCascade_sum st gs ss mas scopus k, scoreCascade_cnt st gs ss mas scopus⟩

/-- The topic used to refute independent subset scoring: Scopus is
empty, the other three backends have the same singleton set. -/
def scopusEmptyTopic : TopicData :=
  ⟨[some "a"], [some "a"], .entries [], [some "a"]⟩

/-- C2 counterexample: with Scopus empty, the MAS and GS sets are both
non-empty with Jaccard similarity 1, yet the `MAS_GS` sum stays 0 for
the topic — the failed `SS_SCOPUS` guard aborted the remaining
combinations, so subsets are not scored independently. -/
theorem independent_subset_scoring_fails :
    0 < (topicMasSet scopusEmptyTopic).card ∧ 0 < (topicGsSet scopusEmptyTopic).card ∧
      jac2 (topicMasSet scopusEmptyTopic) (topicGsSet scopusEmptyTopic) = 1 ∧
      (runBatch [scopusEmptyTopic]).sum_score ComboKey.MAS_GS = 0 := by
  refine ⟨by decide, by decide, ?_, ?_⟩
  · have hm : topicMasSet scopusEmptyTopic = {some "a"} := by decide
    have hg : topicGsSet scopusEmptyTopic = {some "a"} := by decide
    rw [hm, hg, jac2_singleton]
  · show (processTopic initState scopusEmptyTopic).sum_score ComboKey.MAS_GS = 0
    rw [processTopic_sum]
    rw [if_neg (by decide :
      ¬ ((topicScan scopusEmptyTopic).2.1 ≠ 1 ∧
        comboReached ComboKey.MAS_GS (topicGsSet scopusEmptyTopic) (topicSsSet scopusEmptyTopic)
          (topicMasSet scopusEmptyTopic) (topicScopusSet scopusEmptyTopic) = true))]
    simp [initState]

/-- C1, amended: `finalize` divides every combination sum by the one
shared counter `cnt`, the number of topics on which the whole cascade
completed (check passed and all four truncated sets non-empty); every
combination therefore gets the same denominator, not its own
contributing-topic count. -/
theorem finalize_divides_by_shared_cnt (topics : List TopicData) (k : ComboKey) :
    finalizeScores (runBatch topics) k =
      (runBatch topics).sum_score k / ((topics.countP validTopic : Nat) : ℚ) := by
  unfold finalizeScores
  have h : (runBatch topics).cnt = topics.countP validTopic := by
    have := foldl_processTopic_cnt topics initState
    simpa [runBatch, initState] using this
  rw [h]

/-- The two-topic batch refuting per-combination denominators: on the
first topic every backend has the singleton set, on the second Scopus
is empty while GS and SS still agree. -/
def unevenBatch : List TopicData :=
  [⟨[some "a"], [some "a"], .entries [some "a"], [some "a"]⟩,
   ⟨[some "a"], [some "a"], .entries [], [some "a"]⟩]

/-- C1 counterexample: over `unevenBatch` the `GS_SS` combination
receives a score on both topics (contributing-topic count 2, sum 2), but
`finalize` divides by the shared counter 1, yielding 2 instead of the
claimed 2 / 2 = 1. -/
theorem finalize_per_combination_denominator_fails :
    finalizeScores (runBatch unevenBatch) ComboKey.GS_SS ≠
      (runBatch unevenBatch).sum_score ComboKey.GS_SS /
        ((specContribCount unevenBatch ComboKey.GS_SS : Nat) : ℚ) := by
  have ht1 : (processTopic initState unevenBatch[0]).sum_score ComboKey.GS_SS = 1 := by
    rw [processTopic_sum]
    rw [if_pos (by decide :
      (topicScan (unevenBatch[0])).2.1 ≠ 1 ∧
        comboReached ComboKey.GS_SS (topicGsSet (unevenBatch[0])) (topicSsSet (unevenBatch[0]))
          (topicMasSet (unevenBatch[0])) (topicScopusSet (unevenBatch[0])) = true)]
    have hg : topicGsSet (unevenBatch[0]) = {some "a"} := by decide
    have hs : topicSsSet (unevenBatch[0]) = {some "a"} := by decide
    simp [initState, comboScore, hg, hs, jac2_singleton]
  have hsum : (runBatch unevenBatch).sum_score ComboKey.GS_SS = 2 := by
    show (processTopic (processTopic initState unevenBatch[0]) unevenBatch[1]).sum_score
        ComboKey.GS_SS = 2
    rw [processTopic_sum, ht1]
    rw [if_pos (by decide :
      (topicScan (unevenBatch[1])).2.1 ≠ 1 ∧
        comboReached ComboKey.GS_SS (topicGsSet (unevenBatch[1])) (topicSsSet (unevenBatch[1]))
          (topicMasSet (unevenBatch[1])) (topicScopusSet (unevenBatch[1])) = true)]
    have hg : topicGsSet (unevenBatch[1]) = {some "a"} := by decide
    have hs : topicSsSet (unevenBatch[1]) = {some "a"} := by decide
    simp [comboScore, hg, hs, jac2_singleton]
    norm_num
  have hcnt : (runBatch unevenBatch).cnt = 1 := by decide
  have hcc : specContribCount unevenBatch ComboKey.GS_SS = 2 := by decide
  unfold finalizeScores
  rw [hsum, hcnt, hcc]
  norm_num

end SSScholar
